import Mathlib

/-!
Verification of the v2m voice-to-clipboard daemon core against its
natural-language specification.

The definitions below are a shallow embedding of the Python source:

* `callback` embeds the sounddevice capture callback of
  `infrastructure/audio/recorder.py` (`AudioRecorder.start.callback`).
  The preallocated float32 buffer and its write cursor are modelled as the
  list `recorded` of the samples written so far (the buffer's valid prefix
  `self._buffer[:self._write_pos]`); `maxSamples` is `self.max_samples`.
* `VadParametersConfig`, `defaultVadParameters` embed the Pydantic model of
  `config.py` with its declared field defaults; `effectiveSilenceCommitMs`
  embeds the `getattr(vad_config, 'min_silence_duration_ms',
  DEFAULT_SILENCE_COMMIT_MS)` lookup of `streaming_transcriber.py`: the
  attribute always exists on the Pydantic model, so the lookup returns the
  field and the 800 ms fallback is dead.
* `LoopState`, `TickInput`, `step`, `runLoop`, `stopFlush`, `runSession`
  embed `StreamingTranscriber._loop`.  One `TickInput` is one iteration of
  the `while` loop after `read_chunk`: the chunk is represented by its
  sample count and by the energy detector's verdict on it (the detector
  itself is `detectSpeechEnergy`; `tickOfChunk` builds the input from a
  concrete chunk), `now` is the value of `time.time()` during the
  iteration, and `provResult` / `finalResult` are the texts the model
  worker would return for a provisional / final inference submitted at
  this iteration (the worker runs outside this module).  Machine floats
  are modelled as exact rationals.
* `updateContextWindow`, `buildContextPrompt` embed
  `_update_context_window` and `_build_context_prompt`; `takeRightStr`
  is Python's `s[-n:]` slice for `n > 0`.
* `OrchState`, `orchStart`, `orchStop`, `orchToggle`, `getStatus` embed
  `services/orchestrator.py`.  `startErr` / `stopErr` is `none` when the
  body of the `try:` block runs without an exception and `some e` when an
  exception with message `e` escapes it.
* `processTextRun` / `translateTextRun` embed `Orchestrator.process_text`
  and `Orchestrator.translate_text`; the injected LLM call is the
  `Except` argument, and the outcome records the returned response, what
  was copied to the clipboard, and the notification titles sent.
* `transcribeAudioRoute` embeds the routing decision of
  `FileTranscriptionService._transcribe_audio_data`.
-/

namespace V2M

/-! ## Audio recorder (Python sounddevice backend) -/

/-- State of the Python-engine `AudioRecorder` buffer: `recorded` is the
valid prefix `self._buffer[:self._write_pos]` of the preallocated buffer,
`maxSamples` is `self.max_samples`, `recording` is `self._recording`. -/
structure RecorderState where
  maxSamples : Nat
  recorded : List ℚ
  recording : Bool

/-- The sounddevice callback of `AudioRecorder.start` (recorder.py):
`samples_to_write = min(frames, self.max_samples - self._write_pos)` and the
slice assignment `self._buffer[write_pos:end_pos] = indata[:samples_to_write]`.
When the buffer is full, `samples_to_write = 0` and the incoming (newest)
samples are discarded; there is no overrun counter in the source. -/
def callback (st : RecorderState) (indata : List ℚ) : RecorderState :=
  if !st.recording then st
  else
    let samplesToWrite := min indata.length (st.maxSamples - st.recorded.length)
    { st with recorded := st.recorded ++ indata.take samplesToWrite }

/-! ## Configuration (config.py) -/

/-- `VadParametersConfig` of config.py. -/
structure VadParametersConfig where
  threshold : ℚ
  min_speech_duration_ms : Nat
  min_silence_duration_ms : Nat

/-- The Pydantic field defaults of `VadParametersConfig`:
`threshold = 0.3`, `min_speech_duration_ms = 250`,
`min_silence_duration_ms = 500`. -/
def defaultVadParameters : VadParametersConfig :=
  { threshold := 3 / 10, min_speech_duration_ms := 250, min_silence_duration_ms := 500 }

/-- `DEFAULT_SILENCE_COMMIT_MS = 800` of streaming_transcriber.py. -/
def DEFAULT_SILENCE_COMMIT_MS : Nat := 800

/-- `self._silence_commit_ms = getattr(vad_config, 'min_silence_duration_ms',
DEFAULT_SILENCE_COMMIT_MS)` in `StreamingTranscriber.__init__`: the Pydantic
model always has the attribute, so the lookup yields the field and the
fallback is never taken. -/
def effectiveSilenceCommitMs (vad : VadParametersConfig) : Nat :=
  vad.min_silence_duration_ms

/-! ## Streaming transcriber loop (streaming_transcriber.py) -/

/-- `MIN_SEGMENT_DURATION = 0.5` (seconds). -/
def MIN_SEGMENT_DURATION : ℚ := 1 / 2

/-- `PROVISIONAL_INTERVAL = 0.5` (seconds). -/
def PROVISIONAL_INTERVAL : ℚ := 1 / 2

/-- `CONTEXT_WINDOW_CHARS = 200`. -/
def CONTEXT_WINDOW_CHARS : Nat := 200

/-- `PRE_ROLL_CHUNKS = 3`. -/
def PRE_ROLL_CHUNKS : Nat := 3

/-- Python's slice `s[-n:]` for `n > 0`: the last `min n s.length`
characters of `s`. -/
def takeRightStr (s : String) (n : Nat) : String :=
  ⟨s.data.drop (s.data.length - n)⟩

/-- Python's `str.strip()`: remove leading and trailing whitespace. -/
def pyStrip (s : String) : String :=
  ⟨((s.data.dropWhile Char.isWhitespace).reverse.dropWhile Char.isWhitespace).reverse⟩

/-- `StreamingTranscriber._update_context_window`: strip the text and, when
nonempty, append it after a space and keep the last 200 characters. -/
def updateContextWindow (ctx text : String) : String :=
  let clean := pyStrip text
  if clean.isEmpty then ctx
  else takeRightStr (ctx ++ " " ++ clean) CONTEXT_WINDOW_CHARS

/-- `StreamingTranscriber._build_context_prompt`: empty window gives an
empty prompt, otherwise the last 200 characters of the window. -/
def buildContextPrompt (ctx : String) : String :=
  if ctx.isEmpty then "" else takeRightStr ctx CONTEXT_WINDOW_CHARS

/-- `StreamingTranscriber._detect_speech_energy`: false on an empty chunk,
otherwise `sqrt(mean(chunk**2)) > threshold`.  In exact arithmetic the
square root is avoided by comparing squares, which agrees with the source
for the nonnegative thresholds the configuration admits. -/
def detectSpeechEnergy (chunk : List ℚ) (threshold : ℚ) : Bool :=
  if chunk.isEmpty then false
  else decide (threshold * threshold < (chunk.map fun x => x * x).sum / chunk.length)

/-- One event pushed through `session_manager.emit_event
("transcription_update", {text, final})`. -/
structure Event where
  text : String
  final : Bool

/-- The loop-local and instance state of `StreamingTranscriber._loop`:
`all_final_text`, `current_segment_audio` (chunks by sample count),
`segment_duration` (seconds), `last_provisional_time`, `provisional_text`,
`self._silence_start`, `self._pre_roll_buffer` (chunks by sample count) and
`self._context_window`. -/
structure LoopState where
  allFinal : List String
  segment : List Nat
  segmentDuration : ℚ
  lastProvisionalTime : ℚ
  provisionalText : String
  silenceStart : Option ℚ
  preRoll : List Nat
  contextWindow : String

/-- One iteration of the `while` loop: the chunk `read_chunk` returned
(by sample count and the energy detector's verdict), the wall clock, and
the worker's answers were an inference submitted now. -/
structure TickInput where
  chunkLen : Nat
  isSpeech : Bool
  now : ℚ
  provResult : String
  finalResult : String

/-- `TickInput` of a concrete chunk under the configured energy
threshold. -/
def tickOfChunk (threshold : ℚ) (chunk : List ℚ) (now : ℚ)
    (provResult finalResult : String) : TickInput :=
  { chunkLen := chunk.length
    isSpeech := detectSpeechEnergy chunk threshold
    now := now
    provResult := provResult
    finalResult := finalResult }

/-- One iteration of `StreamingTranscriber._loop` (commitMs is
`self._silence_commit_ms`), returning the updated state and the
`transcription_update` events emitted during the iteration:

* empty chunk: `continue`;
* the chunk joins the pre-roll ring (`pop(0)` beyond `PRE_ROLL_CHUNKS`);
* speech starting an empty segment prepends the pre-roll buffer and the
  duration is recomputed from it; otherwise the chunk is appended while
  speech continues or a segment is active;
* on speech: `silence_start = None`; a provisional inference runs when
  `now - last_provisional_time > PROVISIONAL_INTERVAL` and
  `segment_duration > MIN_SEGMENT_DURATION`, and its text is emitted only
  when nonempty and different from the previous provisional text;
* on silence with an active segment: `silence_start` is set once and the
  segment is committed when `(now - silence_start) * 1000 >
  silence_commit_ms` and `segment_duration > MIN_SEGMENT_DURATION`; a
  nonempty final text is appended to `all_final_text`, fed to the context
  window and emitted as a final event; the buffer is flushed either way. -/
def step (commitMs : ℚ) (st : LoopState) (t : TickInput) : LoopState × List Event :=
  if t.chunkLen = 0 then (st, [])
  else
    let pr1 := st.preRoll ++ [t.chunkLen]
    let preRoll := if PRE_ROLL_CHUNKS < pr1.length then pr1.drop 1 else pr1
    let startSeg := t.isSpeech && st.segment.isEmpty
    let seg :=
      if startSeg then preRoll
      else if t.isSpeech || !st.segment.isEmpty then st.segment ++ [t.chunkLen]
      else st.segment
    let dur :=
      if startSeg then (preRoll.sum : ℚ) / 16000
      else if t.isSpeech || !st.segment.isEmpty then
        st.segmentDuration + (t.chunkLen : ℚ) / 16000
      else st.segmentDuration
    if t.isSpeech then
      if t.now - st.lastProvisionalTime > PROVISIONAL_INTERVAL ∧
          dur > MIN_SEGMENT_DURATION then
        if t.provResult ≠ "" ∧ t.provResult ≠ st.provisionalText then
          ({ st with
              preRoll := preRoll
              segment := seg
              segmentDuration := dur
              silenceStart := none
              lastProvisionalTime := t.now
              provisionalText := t.provResult },
           [{ text := t.provResult, final := false }])
        else
          ({ st with
              preRoll := preRoll
              segment := seg
              segmentDuration := dur
              silenceStart := none
              lastProvisionalTime := t.now }, [])
      else
        ({ st with
            preRoll := preRoll
            segment := seg
            segmentDuration := dur
            silenceStart := none }, [])
    else if seg.isEmpty then
      ({ st with preRoll := preRoll }, [])
    else
      let sStart := st.silenceStart.getD t.now
      if (t.now - sStart) * 1000 > commitMs ∧ dur > MIN_SEGMENT_DURATION then
        if t.finalResult ≠ "" then
          ({ st with
              preRoll := preRoll
              segment := []
              segmentDuration := 0
              provisionalText := ""
              silenceStart := none
              allFinal := st.allFinal ++ [t.finalResult]
              contextWindow := updateContextWindow st.contextWindow t.finalResult },
           [{ text := t.finalResult, final := true }])
        else
          ({ st with
              preRoll := preRoll
              segment := []
              segmentDuration := 0
              provisionalText := ""
              silenceStart := none }, [])
      else
        ({ st with
            preRoll := preRoll
            segment := seg
            segmentDuration := dur
            silenceStart := some sStart }, [])

/-- The `while not self._stop_event.is_set()` loop over a finite trace of
iterations, collecting emitted events in order. -/
def runLoop (commitMs : ℚ) : LoopState → List TickInput → LoopState × List Event
  | st, [] => (st, [])
  | st, t :: ts =>
    let r := step commitMs st t
    let r2 := runLoop commitMs r.1 ts
    (r2.1, r.2 ++ r2.2)

/-- The "final commit on stop" after the loop: when a segment is active
with `segment_duration > MIN_SEGMENT_DURATION`, one last final inference
runs; a nonempty result is appended, fed to the context window and
emitted. -/
def stopFlush (st : LoopState) (stopResult : String) : LoopState × List Event :=
  if st.segment ≠ [] ∧ st.segmentDuration > MIN_SEGMENT_DURATION then
    if stopResult ≠ "" then
      ({ st with
          allFinal := st.allFinal ++ [stopResult]
          contextWindow := updateContextWindow st.contextWindow stopResult },
       [{ text := stopResult, final := true }])
    else (st, [])
  else (st, [])

/-- The loop-local state at loop entry: `start()` reset the context window
and silence tracking, `_loop` initialises its locals, and
`last_provisional_time = time.time()` at entry is `t0`. -/
def initState (t0 : ℚ) : LoopState :=
  { allFinal := [], segment := [], segmentDuration := 0, lastProvisionalTime := t0,
    provisionalText := "", silenceStart := none, preRoll := [], contextWindow := "" }

/-- A whole recording session of `_loop`: the iterations until the stop
event, then the final commit on stop.  Returns the final state and all
events in emission order. -/
def runSession (commitMs t0 : ℚ) (inputs : List TickInput) (stopResult : String) :
    LoopState × List Event :=
  let r := runLoop commitMs (initState t0) inputs
  let s := stopFlush r.1 stopResult
  (s.1, r.2 ++ s.2)

/-- The string `_loop` returns: `" ".join(all_final_text)`. -/
def sessionText (commitMs t0 : ℚ) (inputs : List TickInput) (stopResult : String) :
    String :=
  String.intercalate " " (runSession commitMs t0 inputs stopResult).1.allFinal

/-- The texts of the `final=True` events of a trace, in emission order. -/
def finalTexts (evs : List Event) : List String :=
  (evs.filter fun e => e.final).map fun e => e.text

/-! ## Orchestrator (services/orchestrator.py) -/

/-- The orchestrator's guarded state: `self._is_recording` and
`self._model_loaded`. -/
structure OrchState where
  isRecording : Bool
  modelLoaded : Bool

/-- The `ToggleResponse` Pydantic model of api.py. -/
structure ToggleResponse where
  status : String
  message : String
  text : Option String

/-- The `StatusResponse` Pydantic model of api.py. -/
structure StatusResponse where
  state : String
  recording : Bool
  modelLoaded : Bool

/-- `Orchestrator.start`: an early idempotent return while recording;
otherwise the transcriber is started and `_is_recording` set (an exception
in the try body leaves the state and yields an error response). -/
def orchStart (st : OrchState) (startErr : Option String) : OrchState × ToggleResponse :=
  if st.isRecording then
    (st, { status := "recording", message := "⚠️ Ya está grabando", text := none })
  else
    match startErr with
    | none =>
      ({ st with isRecording := true },
       { status := "recording", message := "🎙️ Grabando...", text := none })
    | some e =>
      (st, { status := "error", message := "❌ Error: " ++ e, text := none })

/-- `Orchestrator.stop`: an early idempotent return while idle; otherwise
`_is_recording` is cleared first, the transcriber is stopped, a blank
transcription answers "no voice" with `text=None`, a nonempty one is
copied and returned; the exception handler also clears `_is_recording`.
`transcription` is what `self.transcriber.stop()` returned. -/
def orchStop (st : OrchState) (transcription : String) (stopErr : Option String) :
    OrchState × ToggleResponse :=
  if !st.isRecording then
    (st, { status := "idle", message := "⚠️ No hay grabación en curso", text := none })
  else
    match stopErr with
    | none =>
      let st1 := { st with isRecording := false }
      if (pyStrip transcription).isEmpty then
        (st1, { status := "idle", message := "❌ No se detectó voz", text := none })
      else
        (st1, { status := "idle"
                message := "✅ Copiado al portapapeles"
                text := some transcription })
    | some e =>
      ({ st with isRecording := false },
       { status := "error", message := "❌ Error: " ++ e, text := none })

/-- `Orchestrator.toggle`: start while idle, stop while recording. -/
def orchToggle (st : OrchState) (startErr : Option String) (transcription : String)
    (stopErr : Option String) : OrchState × ToggleResponse :=
  if !st.isRecording then orchStart st startErr
  else orchStop st transcription stopErr

/-- `Orchestrator.get_status`: `state = "recording" if self._is_recording
else "idle"`, with the raw flags alongside; a pure read. -/
def getStatus (st : OrchState) : StatusResponse :=
  { state := if st.isRecording then "recording" else "idle",
    recording := st.isRecording, modelLoaded := st.modelLoaded }

/-! ## LLM post-processing (services/orchestrator.py) -/

/-- What one `process_text` / `translate_text` call did: the `LLMResponse`
fields, what was written to the clipboard (if anything), and the titles of
the desktop notifications sent. -/
structure LLMOutcome where
  text : String
  backend : String
  clipboard : Option String
  notices : List String

/-- The target-language guard of `Orchestrator.translate_text`:
`re.match(r"^[a-zA-Z\s\-]{2,20}$", target_lang)`. -/
def isLangChar (c : Char) : Bool :=
  c.isAlpha || c.isWhitespace || c = '-'

/-- Whether `target_lang` passes the regex guard: 2 to 20 characters, each
a letter, whitespace, or a hyphen. -/
def isValidTargetLang (s : String) : Bool :=
  2 ≤ s.length && s.length ≤ 20 && s.data.all isLangChar

/-- `Orchestrator.process_text` with the LLM call's outcome injected: on
success the refined text is copied and returned; on any exception the
original text is copied to the clipboard, a fallback notification is sent,
and the original text is returned with backend "... (fallback)". -/
def processTextRun (backendName text : String) (llm : Except String String) :
    LLMOutcome :=
  match llm with
  | .ok refined =>
    { text := refined
      backend := backendName
      clipboard := some refined
      notices := ["✅ " ++ backendName ++ " - copiado"] }
  | .error _ =>
    { text := text
      backend := backendName ++ " (fallback)"
      clipboard := some text
      notices := ["⚠️ " ++ backendName ++ " falló"] }

/-- `Orchestrator.translate_text` with the LLM call's outcome injected: an
invalid target language short-circuits with backend "error"; on success
the translation is copied and returned; on any exception an error
notification is sent and the original text is returned with backend
"... (error)" — nothing is copied to the clipboard. -/
def translateTextRun (backendName text targetLang : String)
    (llm : Except String String) : LLMOutcome :=
  if !isValidTargetLang targetLang then
    { text := text, backend := "error", clipboard := none, notices := ["❌ Error"] }
  else
    match llm with
    | .ok translated =>
      { text := translated
        backend := backendName
        clipboard := some translated
        notices := ["✅ Traducción (" ++ targetLang ++ ")"] }
    | .error _ =>
      { text := text
        backend := backendName ++ " (error)"
        clipboard := none
        notices := ["❌ Error traducción"] }

/-! ## File transcription routing (file_transcription_service.py) -/

/-- Which decoding path `_transcribe_audio_data` picks. -/
structure TranscribeRoute where
  batched : Bool
  batchSize : Option Nat

/-- The routing of `FileTranscriptionService._transcribe_audio_data`:
`duration = len(audio_data) / 16000`, `use_batched = duration > 30.0`,
and the batched pipeline runs with `batch_size=16`. -/
def transcribeAudioRoute (audioLen : Nat) : TranscribeRoute :=
  if (audioLen : ℚ) / 16000 > 30 then { batched := true, batchSize := some 16 }
  else { batched := false, batchSize := none }

/-! ## Helper lemmas -/

theorem takeRightStr_length_le (s : String) (n : Nat) :
    (takeRightStr s n).length ≤ n := by
  show (s.data.drop (s.data.length - n)).length ≤ n
  rw [List.length_drop]
  omega

theorem updateContextWindow_length_le (ctx text : String)
    (h : ctx.length ≤ CONTEXT_WINDOW_CHARS) :
    (updateContextWindow ctx text).length ≤ CONTEXT_WINDOW_CHARS := by
  by_cases hc : (pyStrip text).isEmpty = true
  · simpa [updateContextWindow, hc] using h
  · simpa [updateContextWindow, hc] using
      takeRightStr_length_le (ctx ++ " " ++ pyStrip text) CONTEXT_WINDOW_CHARS

theorem buildContextPrompt_length_le (ctx : String) :
    (buildContextPrompt ctx).length ≤ CONTEXT_WINDOW_CHARS := by
  unfold buildContextPrompt
  split
  · simp [CONTEXT_WINDOW_CHARS]
  · exact takeRightStr_length_le _ _

theorem finalTexts_append (a b : List Event) :
    finalTexts (a ++ b) = finalTexts a ++ finalTexts b := by
  simp [finalTexts, List.filter_append]

/-- Each iteration appends to `all_final_text` exactly the texts of the
final events it emits. -/
theorem step_allFinal (commitMs : ℚ) (st : LoopState) (t : TickInput) :
    (step commitMs st t).1.allFinal = st.allFinal ++ finalTexts (step commitMs st t).2 := by
  simp only [step]
  repeat' split
  all_goals simp [finalTexts]

/-- Each iteration keeps the context window within the 200-character cap. -/
theorem step_contextWindow_le (commitMs : ℚ) (st : LoopState) (t : TickInput)
    (h : st.contextWindow.length ≤ CONTEXT_WINDOW_CHARS) :
    (step commitMs st t).1.contextWindow.length ≤ CONTEXT_WINDOW_CHARS := by
  simp only [step]
  repeat' split
  all_goals simp_all [updateContextWindow_length_le]

theorem runLoop_allFinal (commitMs : ℚ) (inputs : List TickInput) (st : LoopState) :
    (runLoop commitMs st inputs).1.allFinal =
      st.allFinal ++ finalTexts (runLoop commitMs st inputs).2 := by
  induction inputs generalizing st with
  | nil => simp [runLoop, finalTexts]
  | cons t ts ih =>
    simp only [runLoop]
    rw [ih, step_allFinal, finalTexts_append, List.append_assoc]

theorem stopFlush_allFinal (st : LoopState) (stopResult : String) :
    (stopFlush st stopResult).1.allFinal =
      st.allFinal ++ finalTexts (stopFlush st stopResult).2 := by
  unfold stopFlush
  repeat' split
  all_goals simp [finalTexts]

/-- Over a whole session, `all_final_text` is exactly the list of
`final=True` event texts in emission order. -/
theorem runSession_allFinal (commitMs t0 : ℚ) (inputs : List TickInput)
    (stopResult : String) :
    (runSession commitMs t0 inputs stopResult).1.allFinal =
      finalTexts (runSession commitMs t0 inputs stopResult).2 := by
  simp only [runSession]
  rw [stopFlush_allFinal, runLoop_allFinal, finalTexts_append]
  simp [initState]

/-! ## Claim theorems -/

/-- C1 (counterexample): with the 4-sample Python capture buffer already
full at `[1, 2, 3, 4]`, a producer write of `[9]` leaves the buffer's
contents unchanged and the newest sample 9 is nowhere in it — the oldest
samples are kept and the newest dropped, not the other way around. -/
theorem c1_counterexample :
    (callback ⟨4, [1, 2, 3, 4], true⟩ [9]).recorded = [1, 2, 3, 4] ∧
    (9 : ℚ) ∉ (callback ⟨4, [1, 2, 3, 4], true⟩ [9]).recorded := by
  decide

/-- C1 (amended): while recording, a producer write appends only the
prefix of the incoming samples that fits the remaining capacity — the
oldest samples are kept and the newest are dropped — and a write into a
full buffer changes nothing.  No overrun counter exists in this backend. -/
theorem c1_full_buffer_drops_newest (st : RecorderState) (indata : List ℚ)
    (h : st.recording = true) :
    (callback st indata).recorded =
      st.recorded ++ indata.take (st.maxSamples - st.recorded.length) ∧
    (st.recorded.length = st.maxSamples → callback st indata = st) := by
  constructor
  · simp only [callback, h, Bool.not_true, Bool.false_eq_true, if_false]
    congr 1
    rw [List.take_eq_take]
    omega
  · intro hfull
    rcases st with ⟨mx, recd, r⟩
    simp_all [callback]

/-- C1 (witness): a partially full buffer `[1, 2]` with capacity 4 accepts
the first two of three incoming samples. -/
theorem c1_witness :
    (callback ⟨4, [1, 2], true⟩ [9, 8, 7]).recorded = [1, 2, 9, 8] := by
  have h := (c1_full_buffer_drops_newest ⟨4, [1, 2], true⟩ [9, 8, 7] rfl).1
  simpa using h

/-- C2 (counterexample): with an active 1-second segment and silence of
exactly 800 ms (= the commit threshold), the claim's conditions
`silence ≥ SILENCE_COMMIT_MS` and `duration ≥ MIN_SEGMENT` hold, yet the
iteration neither flushes the segment nor emits any event: the source
compares with strict `>`. -/
theorem c2_counterexample :
    ((8 / 10 - (0 : ℚ)) * 1000 = 800 ∧ ((800 : ℚ) ≥ 800) ∧
      (1 : ℚ) + (1600 : ℚ) / 16000 ≥ MIN_SEGMENT_DURATION) ∧
    (step 800 ⟨[], [16000], 1, 0, "", some 0, [16000], ""⟩
        ⟨1600, false, 8 / 10, "", "hi"⟩).1.segment ≠ [] ∧
    (step 800 ⟨[], [16000], 1, 0, "", some 0, [16000], ""⟩
        ⟨1600, false, 8 / 10, "", "hi"⟩).2 = [] := by
  refine ⟨⟨by norm_num, by norm_num, by norm_num [MIN_SEGMENT_DURATION]⟩, ?_, ?_⟩ <;>
    (norm_num [step, MIN_SEGMENT_DURATION, PROVISIONAL_INTERVAL, PRE_ROLL_CHUNKS]; try decide)

/-- C2 (amended): on a nonempty chunk with an active segment, a silent
iteration commits (flushes the segment for a final inference) exactly when
the accumulated silence strictly exceeds the commit threshold AND the
segment duration strictly exceeds `MIN_SEGMENT_DURATION`; a speech
iteration emits a provisional event exactly when the time since the last
provisional strictly exceeds `PROVISIONAL_INTERVAL`, the duration strictly
exceeds `MIN_SEGMENT_DURATION`, and the provisional text is nonempty and
new.  Exact equality with either threshold does not commit, and a segment
of exactly `MIN_SEGMENT_DURATION` is eligible for neither. -/
theorem c2_commit_boundary (commitMs : ℚ) (st : LoopState) (t : TickInput)
    (hlen : t.chunkLen ≠ 0) (hseg : st.segment ≠ []) :
    (t.isSpeech = false →
      ((step commitMs st t).1.segment = [] ↔
        ((t.now - st.silenceStart.getD t.now) * 1000 > commitMs ∧
         st.segmentDuration + (t.chunkLen : ℚ) / 16000 > MIN_SEGMENT_DURATION))) ∧
    (t.isSpeech = true →
      ((step commitMs st t).2 ≠ [] ↔
        (t.now - st.lastProvisionalTime > PROVISIONAL_INTERVAL ∧
         st.segmentDuration + (t.chunkLen : ℚ) / 16000 > MIN_SEGMENT_DURATION ∧
         t.provResult ≠ "" ∧ t.provResult ≠ st.provisionalText))) := by
  have hemp : st.segment.isEmpty = false := by
    simpa [List.isEmpty_iff] using hseg
  constructor
  · intro hsp
    simp only [step, hsp, hemp, if_neg hlen]
    simp only [Bool.false_and, Bool.not_false, Bool.or_true, if_false, if_true,
      Bool.false_eq_true, List.isEmpty_eq_true, List.append_ne_nil_of_right_ne_nil]
    repeat' split
    all_goals simp_all
  · intro hsp
    simp only [step, hsp, hemp, if_neg hlen]
    simp only [Bool.true_and, Bool.true_or, if_true, Bool.false_eq_true, if_false]
    repeat' split
    all_goals simp_all
    all_goals assumption

/-- C2 (witness): the same state as the counterexample but with 1000 ms of
silence commits and flushes the segment. -/
theorem c2_witness :
    (step 800 ⟨[], [16000], 1, 0, "", some 0, [16000], ""⟩
        ⟨1600, false, 1, "", "hi"⟩).1.segment = [] := by
  exact ((c2_commit_boundary 800 ⟨[], [16000], 1, 0, "", some 0, [16000], ""⟩
    ⟨1600, false, 1, "", "hi"⟩ (by decide) (by decide)).1 rfl).mpr
    (by constructor <;> norm_num [MIN_SEGMENT_DURATION])

/-- C3 (counterexample): a session emitting zero `final=True` events (here:
no iterations at all) answers `/stop` with `text = none`, not with the
empty concatenation of the (empty) list of final-event texts. -/
theorem c3_counterexample :
    finalTexts (runSession 800 0 [] "x").2 = [] ∧
    (orchStop ⟨true, false⟩ (sessionText 800 0 [] "x") none).2.text = none ∧
    (orchStop ⟨true, false⟩ (sessionText 800 0 [] "x") none).2.text ≠
      some (String.intercalate " " (finalTexts (runSession 800 0 [] "x").2)) := by
  have h1 : runSession 800 0 [] "x" = (initState 0, []) := by
    simp [runSession, runLoop, stopFlush, initState]
  have h2 : sessionText 800 0 [] "x" = "" := by
    rw [sessionText, h1]
    rfl
  refine ⟨?_, ?_, ?_⟩ <;> simp only [h1, h2] <;> decide

/-- C3 (amended): for every session, the `text` field of the `/stop`
response is the concatenation, separated by single spaces and in emission
order, of the texts of the session's `final=True` events — whenever that
concatenation contains a non-whitespace character; when it is empty or
whitespace-only the response carries `text = none` ("no voice detected"). -/
theorem c3_stop_response_text (commitMs t0 : ℚ) (inputs : List TickInput)
    (stopResult : String) (ml : Bool) :
    (orchStop ⟨true, ml⟩ (sessionText commitMs t0 inputs stopResult) none).2.text =
      (if (pyStrip (String.intercalate " "
            (finalTexts (runSession commitMs t0 inputs stopResult).2))).isEmpty
       then none
       else some (String.intercalate " "
            (finalTexts (runSession commitMs t0 inputs stopResult).2))) := by
  have h : sessionText commitMs t0 inputs stopResult =
      String.intercalate " " (finalTexts (runSession commitMs t0 inputs stopResult).2) := by
    rw [sessionText, runSession_allFinal]
  rw [← h]
  simp only [orchStop, Bool.not_true, Bool.false_eq_true, if_false]
  split
  · rfl
  · rfl

/-- C4 (confirmed): over any session the context window never exceeds 200
characters, and the initial prompt built for any inference never exceeds
200 characters. -/
theorem c4_context_window_bounded (commitMs t0 : ℚ) (inputs : List TickInput)
    (stopResult : String) :
    (runSession commitMs t0 inputs stopResult).1.contextWindow.length ≤
      CONTEXT_WINDOW_CHARS ∧
    ∀ ctx : String, (buildContextPrompt ctx).length ≤ CONTEXT_WINDOW_CHARS := by
  constructor
  · have hloop : ∀ (ts : List TickInput) (st : LoopState),
        st.contextWindow.length ≤ CONTEXT_WINDOW_CHARS →
        (runLoop commitMs st ts).1.contextWindow.length ≤ CONTEXT_WINDOW_CHARS := by
      intro ts
      induction ts with
      | nil => intro st h; simpa [runLoop] using h
      | cons t ts ih =>
        intro st h
        simp only [runLoop]
        exact ih _ (step_contextWindow_le _ _ _ h)
    have hstop : ∀ (st : LoopState) (r : String),
        st.contextWindow.length ≤ CONTEXT_WINDOW_CHARS →
        (stopFlush st r).1.contextWindow.length ≤ CONTEXT_WINDOW_CHARS := by
      intro st r h
      unfold stopFlush
      repeat' split
      · exact updateContextWindow_length_le _ _ h
      · exact h
      · exact h
    simp only [runSession]
    exact hstop _ _ (hloop _ _ (by simp [initState, CONTEXT_WINDOW_CHARS]))
  · exact buildContextPrompt_length_le

/-- C5 (confirmed): `/start` while recording leaves the orchestrator state
unchanged and returns status "recording" with the warning message; `/stop`
while idle leaves the state unchanged and returns status "idle" with the
warning message. -/
theorem c5_idempotent_guards (st : OrchState) (startErr : Option String)
    (transcription : String) (stopErr : Option String) :
    (st.isRecording = true →
      orchStart st startErr =
        (st, { status := "recording", message := "⚠️ Ya está grabando", text := none })) ∧
    (st.isRecording = false →
      orchStop st transcription stopErr =
        (st, { status := "idle", message := "⚠️ No hay grabación en curso", text := none })) := by
  constructor
  · intro h; simp [orchStart, h]
  · intro h; simp [orchStop, h]

/-- C5 (witness): the guards at the two concrete states. -/
theorem c5_witness :
    orchStart ⟨true, false⟩ none =
      (⟨true, false⟩, ⟨"recording", "⚠️ Ya está grabando", none⟩) ∧
    orchStop ⟨false, true⟩ "hola" none =
      (⟨false, true⟩, ⟨"idle", "⚠️ No hay grabación en curso", none⟩) :=
  ⟨(c5_idempotent_guards ⟨true, false⟩ none "" none).1 rfl,
   (c5_idempotent_guards ⟨false, true⟩ none "hola" none).2 rfl⟩

/-- C6 (code bug): with the default configuration the effective
silence-commit threshold is `min_silence_duration_ms = 500`, not the
documented `DEFAULT_SILENCE_COMMIT_MS = 800`: the `getattr` fallback is
dead because the Pydantic model always has the attribute. -/
theorem c6_default_threshold :
    effectiveSilenceCommitMs defaultVadParameters = 500 ∧
    DEFAULT_SILENCE_COMMIT_MS = 800 ∧
    effectiveSilenceCommitMs defaultVadParameters ≠ DEFAULT_SILENCE_COMMIT_MS := by
  decide

/-- C7 (counterexample): a failing `translate_text` call with a valid
target language copies nothing to the clipboard, contrary to the claim
that the original text is copied as a fallback. -/
theorem c7_counterexample :
    (translateTextRun "local" "hola" "en" (.error "backend down")).clipboard = none ∧
    (translateTextRun "local" "hola" "en" (.error "backend down")).clipboard ≠
      some "hola" := by
  decide

/-- C7 (amended): when the LLM backend fails, `process_text` copies the
original text to the clipboard, notifies the user and returns the original
text; `translate_text` (with a valid target language) notifies the user
and returns the original text but copies nothing to the clipboard.
Neither raises: both return an outcome. -/
theorem c7_llm_failure_fallback (backendName text e lang : String)
    (hlang : isValidTargetLang lang = true) :
    (processTextRun backendName text (.error e)).text = text ∧
    (processTextRun backendName text (.error e)).clipboard = some text ∧
    (processTextRun backendName text (.error e)).notices ≠ [] ∧
    (translateTextRun backendName text lang (.error e)).text = text ∧
    (translateTextRun backendName text lang (.error e)).clipboard = none ∧
    (translateTextRun backendName text lang (.error e)).notices ≠ [] := by
  simp [processTextRun, translateTextRun, hlang]

/-- C7 (witness): the fallback behaviors at a concrete failing call. -/
theorem c7_witness :
    (translateTextRun "local" "hola" "en" (.error "boom")).clipboard = none ∧
    (processTextRun "local" "hola" (.error "boom")).clipboard = some "hola" :=
  ⟨(c7_llm_failure_fallback "local" "hola" "boom" "en" rfl).2.2.2.2.1,
   (c7_llm_failure_fallback "local" "hola" "boom" "en" rfl).2.1⟩

/-- C8 (confirmed): the batched decoding path (batch size 16) is chosen
exactly when the normalized audio duration `len / 16000` strictly exceeds
30 seconds, i.e. exactly when the sample count exceeds 480000; otherwise
the standard path runs with no batch size. -/
theorem c8_batched_routing (n : Nat) :
    ((transcribeAudioRoute n).batched = true ↔ (n : ℚ) / 16000 > 30) ∧
    ((n : ℚ) / 16000 > 30 ↔ 480000 < n) ∧
    (transcribeAudioRoute n).batchSize = (if 480000 < n then some 16 else none) := by
  have key : ((30 : ℚ) < (n : ℚ) / 16000) ↔ 480000 < n := by
    rw [lt_div_iff₀ (by norm_num : (0 : ℚ) < 16000)]
    norm_cast
  by_cases h : (30 : ℚ) < (n : ℚ) / 16000
  · simp [transcribeAudioRoute, gt_iff_lt, h, key, key.mp h]
  · simp [transcribeAudioRoute, gt_iff_lt, h, key, mt key.mpr h]

/-- C9 (confirmed): `get_status` returns state "recording" exactly when
the recording flag is set and "idle" otherwise, never the documented
"processing"; the returned `recording` boolean agrees with the state, and
the call only reads the orchestrator's flags. -/
theorem c9_get_status (st : OrchState) :
    ((getStatus st).state = "recording" ↔ st.isRecording = true) ∧
    (getStatus st).state ≠ "processing" ∧
    ((getStatus st).recording = true ↔ (getStatus st).state = "recording") ∧
    (getStatus st).recording = st.isRecording ∧
    (getStatus st).modelLoaded = st.modelLoaded := by
  cases h : st.isRecording <;> simp [getStatus, h]

/-- C10 (confirmed): after any `Orchestrator.stop()` — success with text,
"no voice", called while idle, or an internal error — the recording flag
is false. -/
theorem c10_stop_clears_recording (st : OrchState) (transcription : String)
    (stopErr : Option String) :
    ((orchStop st transcription stopErr).1).isRecording = false := by
  rcases st with ⟨rec, ml⟩
  cases rec <;> cases stopErr
  all_goals simp only [orchStop]
  all_goals repeat' split
  all_goals simp_all

end V2M
